import Mathlib

/-!
Shallow embedding of `amaroo_account_currency/models/account_move.py`
(the `AccountMoveLine` extension of `account.move.line`).

Modelling conventions:
- Python floats are modelled as `ℚ`; Python float truthiness is `≠ 0`.
- An Odoo many2one that can be empty (`user_currency_id`) is an `Option`;
  `record.name` of an empty many2one is Python `False`, which never equals a
  string key, so the match `currency == line.user_currency_id.name` is
  `userCurrencyName = some key`.
- A Python dict is an association list with insertion-order iteration
  (`dict.get` finds the first matching key, `dict.items()` is list order).
- Python exceptions are explicit values of `PyError`.  The error branch of
  `_generate_currency_rates` evaluates `company.currency_id.name` with no
  variable `company` in scope, so that branch raises `NameError` (the
  `UserError` constructor is never reached); float division by a zero
  divisor raises `ZeroDivisionError`.
- External collaborators (provider `_parse_*_data` functions, the platform
  pricing routine `_get_computed_price_unit`, the currency conversion
  service `_convert`, the tax engine `compute_all`, per-currency rounding)
  are opaque function parameters.
-/

/-- The fields of a ledger line (and of its move / company) that the module
reads or writes.  `moveCurrencyName` is `line.move_id.currency_id.name`,
`currencyName` is `line.currency_id.name`, `companyCurrencyName` is the name
of the base currency of the owning company. -/
structure MoveLine where
  moveCurrencyName : String
  currencyName : String
  companyCurrencyName : String
  companyId : Nat
  companyProvider : Option String
  userCurrencyName : Option String
  userAmount : ℚ
  exchangeRate : ℚ
  priceUnit : ℚ
  debit : ℚ
  credit : ℚ
  amountCurrency : ℚ
  moveIsInvoice : Bool
  moveHasReversedEntry : Bool
  moveDate : Option Nat
  deriving DecidableEq, Repr

/-- A Python exception value. -/
inductive PyError where
  | nameError : PyError
  | zeroDivisionError : PyError
  | userError : String → PyError
  deriving DecidableEq, Repr

/-- A parsed rate map: currency code to `(rate, date)` pairs, in dict
insertion order. -/
abbrev ParsedData := List (String × ℚ × Nat)

/-- `dict.get(key, None)` on the rate map. -/
def parsed_get (parsed : ParsedData) (key : String) : Option (ℚ × Nat) :=
  (parsed.find? (fun e => e.1 = key)).map (fun e => e.2)

/-- What the `_parse_<provider>_data` function of a provider returns: the
Python literal `False` (failure sentinel) or a rate map (possibly empty). -/
inductive ParseResult where
  | failure : ParseResult
  | ok : ParsedData → ParseResult
  deriving DecidableEq, Repr

/-- The inner loop of `_generate_currency_rates`: walk the parsed entries in
order, and whenever the entry key equals the name of the user currency of
the line, assign `rate / base` to `exchange_rate`. -/
def assign_rates (base : ℚ) : MoveLine → List (String × ℚ × Nat) → MoveLine
  | l, [] => l
  | l, e :: ps =>
    assign_rates base
      (if l.userCurrencyName = some e.1 then { l with exchangeRate := e.2.1 / base } else l)
      ps

/-- The body of `_generate_currency_rates` for one line of `self`:
look up `line.move_id.currency_id.name` in the parsed data; on a missing
key the error branch evaluates the undefined variable `company` and raises
`NameError`; otherwise divide every rate by the found base rate (raising
`ZeroDivisionError` on a zero base rate, which the first inner-loop
iteration hits, the map being nonempty since it holds the found key) and
assign matching quotients to `exchange_rate`. -/
def generate_line (parsed : ParsedData) (line : MoveLine) : Except PyError MoveLine :=
  match parsed_get parsed line.moveCurrencyName with
  | none => Except.error PyError.nameError
  | some rateInfo =>
    if rateInfo.1 = 0 then Except.error PyError.zeroDivisionError
    else Except.ok (assign_rates rateInfo.1 line parsed)

/-- `_generate_currency_rates(parsed_data)`: process the lines of `self` in
order, mutating each in turn; an exception aborts the loop, keeping the
mutations already made.  Returns the (possibly partially updated) lines and
the raised exception, if any. -/
def generate_currency_rates (parsed : ParsedData) :
    List MoveLine → List MoveLine × Option PyError
  | [] => ([], none)
  | l :: ls =>
    match generate_line parsed l with
    | Except.error e => (l :: ls, some e)
    | Except.ok l2 =>
      let rest := generate_currency_rates parsed ls
      (l2 :: rest.1, rest.2)

/-- Insert a company into a provider group, reproducing
`rslt[provider] += company` / `rslt[provider] = company` over a dict with
insertion-order iteration. -/
def add_to_group (acc : List (String × List Nat)) (p : String) (c : Nat) :
    List (String × List Nat) :=
  if acc.any (fun g => g.1 = p) then
    acc.map (fun g => if g.1 = p then (g.1, g.2 ++ [c]) else g)
  else acc ++ [(p, [c])]

/-- One step of `_group_by_provider`: a line whose company has no provider
set is skipped, otherwise its company joins the group of its provider. -/
def group_step (acc : List (String × List Nat)) (l : MoveLine) :
    List (String × List Nat) :=
  match l.companyProvider with
  | none => acc
  | some p => add_to_group acc p l.companyId

/-- `_group_by_provider()`: group the owning companies of the lines in
`self` by `currency_provider`. -/
def group_by_provider (lines : List MoveLine) : List (String × List Nat) :=
  lines.foldl group_step []

/-- The per-provider loop of `update_currency_rates`: `env p cs` is the
result of calling the `_parse_<p>_data` function on the companies `cs`.
On the failure sentinel, log a warning naming the provider and set the
result to `False`; otherwise run `_generate_currency_rates` over all lines
of `self`, an exception from it propagating out of the loop.  Returns
(lines, warnings, result, raised exception). -/
def run_groups (env : String → List Nat → ParseResult) :
    List (String × List Nat) → List MoveLine → List String → Bool →
    List MoveLine × List String × Bool × Option PyError
  | [], lines, warns, rslt => (lines, warns, rslt, none)
  | g :: gs, lines, warns, rslt =>
    match env g.1 g.2 with
    | ParseResult.failure => run_groups env gs lines (warns ++ [g.1]) false
    | ParseResult.ok data =>
      match generate_currency_rates data lines with
      | (lines2, some e) => (lines2, warns, rslt, some e)
      | (lines2, none) => run_groups env gs lines2 warns rslt

/-- `update_currency_rates()`: group by provider, then run each provider
group in order starting from result `True`. -/
def update_currency_rates (env : String → List Nat → ParseResult)
    (lines : List MoveLine) :
    List MoveLine × List String × Bool × Option PyError :=
  run_groups env (group_by_provider lines) lines [] true

/-- `_onchange_user_data()`: on a change of `exchange_rate` or
`user_amount`, if both are truthy set
`price_unit = exchange_rate * user_amount`, else fall back to
`_get_computed_price_unit()` of the platform (passed in as
`computedPriceUnit`). -/
def onchange_user_data (computedPriceUnit : ℚ) (l : MoveLine) : MoveLine :=
  if l.exchangeRate ≠ 0 ∧ l.userAmount ≠ 0 then
    { l with priceUnit := l.exchangeRate * l.userAmount }
  else
    { l with priceUnit := computedPriceUnit }

/-- `_onchange_currency()` for one line of `self`.  `invoiceCascade` is the
platform-dependent effect of the invoice branch
(`_onchange_price_subtotal`; `update_currency_rates`; `_onchange_user_data`);
`convert from amount to date` is
`currency._convert(amount, to_currency, company, date)` of the platform. -/
def onchange_currency_line (invoiceCascade : MoveLine → MoveLine)
    (convert : String → ℚ → String → Nat → ℚ) (today : Nat)
    (l : MoveLine) : MoveLine :=
  if l.moveIsInvoice then invoiceCascade l
  else if l.moveHasReversedEntry then l
  else
    let balance :=
      convert l.currencyName l.amountCurrency l.companyCurrencyName
        (l.moveDate.getD today)
    { l with
      debit := if 0 < balance then balance else 0
      credit := if balance < 0 then -balance else 0 }

/-- The result of the platform tax engine `compute_all` that the module
reads. -/
structure TaxResult where
  totalExcluded : ℚ
  totalIncluded : ℚ
  deriving DecidableEq, Repr

/-- The dictionary returned by `_get_price_total_and_subtotal_model`. -/
structure PriceTotals where
  priceSubtotal : ℚ
  priceTotal : ℚ
  deriving DecidableEq, Repr

/-- `line_discount_price_unit` as computed at the top of
`_get_price_total_and_subtotal_model`: the unit price discounted by
`discount` percent, replaced wholesale by
`self.exchange_rate * self.user_amount` when both of those fields are
truthy. -/
def line_discount_price_unit (exchangeRate userAmount priceUnit discount : ℚ) : ℚ :=
  let discounted := priceUnit * (1 - discount / 100)
  if exchangeRate ≠ 0 ∧ userAmount ≠ 0 then exchangeRate * userAmount
  else discounted

/-- `_get_price_total_and_subtotal_model`.  `taxCompute unit qty sign refund`
is `taxes.compute_all` of the platform (called only when taxes are attached);
`currencyRound` is `currency.round` when a currency is set.  Returns the
`price_subtotal` / `price_total` dictionary. -/
def get_price_total_and_subtotal_model
    (taxCompute : ℚ → ℚ → Int → Bool → TaxResult)
    (exchangeRate userAmount : ℚ)
    (priceUnit quantity discount : ℚ)
    (currencyRound : Option (ℚ → ℚ))
    (hasTaxes : Bool) (moveType : String) : PriceTotals :=
  let unit := line_discount_price_unit exchangeRate userAmount priceUnit discount
  let subtotal := quantity * unit
  let res :=
    if hasTaxes then
      let forceSign : Int :=
        if moveType = "out_invoice" ∨ moveType = "in_refund" ∨ moveType = "out_receipt"
        then -1 else 1
      let isRefund := moveType = "out_refund" ∨ moveType = "in_refund"
      let tr := taxCompute unit quantity forceSign isRefund
      PriceTotals.mk tr.totalExcluded tr.totalIncluded
    else PriceTotals.mk subtotal subtotal
  match currencyRound with
  | some r => PriceTotals.mk (r res.priceSubtotal) (r res.priceTotal)
  | none => res

/-- Applying, in order, the rate generation of every provider group whose
parse succeeded, skipping failed groups: the effect `update_currency_rates`
has on the lines when no generation step raises. -/
def apply_succeeding_groups (env : String → List Nat → ParseResult) :
    List (String × List Nat) → List MoveLine → List MoveLine
  | [], lines => lines
  | g :: gs, lines =>
    match env g.1 g.2 with
    | ParseResult.failure => apply_succeeding_groups env gs lines
    | ParseResult.ok data =>
      apply_succeeding_groups env gs (generate_currency_rates data lines).1

/-- The providers, in group order, whose parse function returned the failure
sentinel: exactly those `update_currency_rates` logs a warning for. -/
def sentinel_warnings (env : String → List Nat → ParseResult)
    (gs : List (String × List Nat)) : List String :=
  gs.filterMap (fun g => if env g.1 g.2 = ParseResult.failure then some g.1 else none)

/-- A ledger line with neutral field values, varied below per scenario. -/
def sample_line : MoveLine where
  moveCurrencyName := "USD"
  currencyName := "USD"
  companyCurrencyName := "USD"
  companyId := 1
  companyProvider := some "ecb"
  userCurrencyName := none
  userAmount := 0
  exchangeRate := 1
  priceUnit := 0
  debit := 0
  credit := 0
  amountCurrency := 0
  moveIsInvoice := false
  moveHasReversedEntry := false
  moveDate := none

/-- Claim C1 (code bug evidence).  With parsed rates USD ↦ 2 and EUR ↦ 4, a
line whose company base currency is USD, whose move currency is EUR and
whose user currency is USD gets exchange rate 2 / 4 = 1 / 2, not the 1.0
the claim (and the docstring of `_generate_currency_rates`) promises for
the own base currency of the company: the code divides by the rate of
`line.move_id.currency_id`, not by the rate of the company base currency. -/
theorem generate_rate_for_company_base_not_one :
    generate_currency_rates [("USD", (2, 0)), ("EUR", (4, 0))]
        [{ sample_line with moveCurrencyName := "EUR",
                            companyCurrencyName := "USD",
                            userCurrencyName := some "USD" }]
      = ([{ sample_line with moveCurrencyName := "EUR",
                             companyCurrencyName := "USD",
                             userCurrencyName := some "USD",
                             exchangeRate := 2 / 4 }], none)
    ∧ ((2 : ℚ) / 4) ≠ 1 := by
  constructor
  · rfl
  · norm_num

/-- Claim C2 (code bug evidence).  A line whose company base currency USD is
absent from the parsed map hits the error branch, which evaluates the
undefined variable `company` and therefore raises `NameError` — not the
user-facing `UserError` naming the unsupported currency that the claim (and
the message text in the source) describes; no rate is applied to the line. -/
theorem generate_missing_currency_raises_nameError :
    generate_currency_rates [("EUR", (1, 0))] [sample_line]
      = ([sample_line], some PyError.nameError) := by
  rfl

/-- Claim C5: on change of `exchange_rate` or `user_amount`, when both
fields are truthy the price unit becomes their product, and when either is
falsy it falls back to the platform computed price unit. -/
theorem onchange_user_data_price_unit (computedPriceUnit : ℚ) (l : MoveLine) :
    (l.exchangeRate ≠ 0 → l.userAmount ≠ 0 →
      (onchange_user_data computedPriceUnit l).priceUnit
        = l.exchangeRate * l.userAmount)
    ∧ ((l.exchangeRate = 0 ∨ l.userAmount = 0) →
      (onchange_user_data computedPriceUnit l).priceUnit = computedPriceUnit) := by
  constructor
  · intro h1 h2
    simp [onchange_user_data, h1, h2]
  · intro h
    rcases h with h | h <;> simp [onchange_user_data, h]

/-- Witness for claim C5 at `exchange_rate = 2`, `user_amount = 50`:
the price unit becomes `2 * 50 = 100`. -/
theorem onchange_user_data_price_unit_witness :
    (onchange_user_data 7 { sample_line with exchangeRate := 2, userAmount := 50 }).priceUnit
      = (2 : ℚ) * 50 :=
  (onchange_user_data_price_unit 7
      { sample_line with exchangeRate := 2, userAmount := 50 }).1
    (by decide) (by decide)

/-- Claim C10: the manual override in `_get_price_total_and_subtotal_model`
is applied only when both `exchange_rate` and `user_amount` are nonzero;
when either is exactly 0 the discounted unit price is used instead. -/
theorem manual_override_requires_both_nonzero
    (exchangeRate userAmount priceUnit discount : ℚ) :
    ((exchangeRate = 0 ∨ userAmount = 0) →
      line_discount_price_unit exchangeRate userAmount priceUnit discount
        = priceUnit * (1 - discount / 100))
    ∧ (exchangeRate ≠ 0 → userAmount ≠ 0 →
      line_discount_price_unit exchangeRate userAmount priceUnit discount
        = exchangeRate * userAmount) := by
  constructor
  · intro h
    rcases h with h | h <;> simp [line_discount_price_unit, h]
  · intro h1 h2
    simp [line_discount_price_unit, h1, h2]

/-- Witness for claim C10: with `exchange_rate = 0` (though set) and
`user_amount = 50`, the discounted path gives `10 * (1 - 20 / 100) = 8`,
not the override. -/
theorem manual_override_requires_both_nonzero_witness :
    line_discount_price_unit 0 50 10 20 = (10 : ℚ) * (1 - 20 / 100) :=
  (manual_override_requires_both_nonzero 0 50 10 20).1 (Or.inl rfl)

/-- Claim C6: in `_get_price_total_and_subtotal_model` with no taxes and a
currency set, the unit price is the discount-reduced one, replaced entirely
by `exchange_rate * user_amount` when both are present; subtotal and total
both equal quantity times that unit price, rounded per the currency. -/
theorem price_total_subtotal_no_tax
    (taxCompute : ℚ → ℚ → Int → Bool → TaxResult)
    (exchangeRate userAmount priceUnit quantity discount : ℚ)
    (round : ℚ → ℚ) (moveType : String) :
    (exchangeRate ≠ 0 → userAmount ≠ 0 →
      get_price_total_and_subtotal_model taxCompute exchangeRate userAmount
          priceUnit quantity discount (some round) false moveType
        = PriceTotals.mk (round (quantity * (exchangeRate * userAmount)))
            (round (quantity * (exchangeRate * userAmount))))
    ∧ ((exchangeRate = 0 ∨ userAmount = 0) →
      get_price_total_and_subtotal_model taxCompute exchangeRate userAmount
          priceUnit quantity discount (some round) false moveType
        = PriceTotals.mk (round (quantity * (priceUnit * (1 - discount / 100))))
            (round (quantity * (priceUnit * (1 - discount / 100))))) := by
  constructor
  · intro h1 h2
    simp [get_price_total_and_subtotal_model, line_discount_price_unit, h1, h2]
  · intro h
    rcases h with h | h <;>
      simp [get_price_total_and_subtotal_model, line_discount_price_unit, h]

/-- Witness for claim C6: `exchange_rate = 2`, `user_amount = 50`,
quantity 3, discount 10 on unit price 7, rounding `x + 1`: the override
wins and both totals are `3 * (2 * 50) + 1`. -/
theorem price_total_subtotal_no_tax_witness :
    get_price_total_and_subtotal_model (fun _ _ _ _ => TaxResult.mk 0 0)
        2 50 7 3 10 (some (fun x => x + 1)) false "entry"
      = PriceTotals.mk ((3 : ℚ) * ((2 : ℚ) * 50) + 1) ((3 : ℚ) * ((2 : ℚ) * 50) + 1) :=
  (price_total_subtotal_no_tax (fun _ _ _ _ => TaxResult.mk 0 0)
      2 50 7 3 10 (fun x => x + 1) "entry").1 (by decide) (by decide)

/-- Claim C8: on change of `currency_id`, for a line of a non-invoice,
non-reversal move the foreign amount is converted to company currency as of
the move date (today when undated); a positive converted balance becomes
the debit with credit 0, a negative one becomes the credit (sign flipped)
with debit 0. -/
theorem onchange_currency_journal_debit_credit
    (invoiceCascade : MoveLine → MoveLine)
    (convert : String → ℚ → String → Nat → ℚ) (today : Nat) (l : MoveLine)
    (h1 : l.moveIsInvoice = false) (h2 : l.moveHasReversedEntry = false) :
    ((0 < convert l.currencyName l.amountCurrency l.companyCurrencyName
        (l.moveDate.getD today) →
      (onchange_currency_line invoiceCascade convert today l).debit
          = convert l.currencyName l.amountCurrency l.companyCurrencyName
              (l.moveDate.getD today)
        ∧ (onchange_currency_line invoiceCascade convert today l).credit = 0)
    ∧ (convert l.currencyName l.amountCurrency l.companyCurrencyName
        (l.moveDate.getD today) < 0 →
      (onchange_currency_line invoiceCascade convert today l).credit
          = -(convert l.currencyName l.amountCurrency l.companyCurrencyName
              (l.moveDate.getD today))
        ∧ (onchange_currency_line invoiceCascade convert today l).debit = 0)) := by
  constructor
  · intro hb
    constructor
    · simp [onchange_currency_line, h1, h2, hb]
    · have hnb : ¬ (convert l.currencyName l.amountCurrency l.companyCurrencyName
          (l.moveDate.getD today) < 0) := by linarith
      simp [onchange_currency_line, h1, h2, hnb]
  · intro hb
    constructor
    · simp [onchange_currency_line, h1, h2, hb]
    · have hnb : ¬ (0 < convert l.currencyName l.amountCurrency l.companyCurrencyName
          (l.moveDate.getD today)) := by linarith
      simp [onchange_currency_line, h1, h2, hnb]

/-- Witness for claim C8: identity-like conversion of a foreign amount 5 on
an undated journal line yields debit 5 and credit 0. -/
theorem onchange_currency_journal_debit_credit_witness :
    (onchange_currency_line id (fun _ a _ _ => a) 0
        { sample_line with amountCurrency := 5 }).debit = (5 : ℚ)
    ∧ (onchange_currency_line id (fun _ a _ _ => a) 0
        { sample_line with amountCurrency := 5 }).credit = 0 :=
  (onchange_currency_journal_debit_credit id (fun _ a _ _ => a) 0
      { sample_line with amountCurrency := 5 } rfl rfl).1 (by decide)

/-- Helper: the warning/result/lines bookkeeping of the provider loop when
no generation step raises an exception. -/
theorem run_groups_no_error_spec (env : String → List Nat → ParseResult) :
    ∀ (gs : List (String × List Nat)) (lines : List MoveLine)
      (warns : List String) (rslt : Bool),
    (run_groups env gs lines warns rslt).2.2.2 = none →
    ((run_groups env gs lines warns rslt).2.2.1 = true ↔
        (rslt = true ∧ ∀ g ∈ gs, env g.1 g.2 ≠ ParseResult.failure))
    ∧ (run_groups env gs lines warns rslt).2.1 = warns ++ sentinel_warnings env gs
    ∧ (run_groups env gs lines warns rslt).1 = apply_succeeding_groups env gs lines := by
  intro gs
  induction gs with
  | nil =>
    intro lines warns rslt h
    simp [run_groups, sentinel_warnings, apply_succeeding_groups]
  | cons g gs ih =>
    intro lines warns rslt h
    rcases hg : env g.1 g.2 with _ | data
    · have hr : run_groups env (g :: gs) lines warns rslt
          = run_groups env gs lines (warns ++ [g.1]) false := by
        simp [run_groups, hg]
      rw [hr] at h ⊢
      obtain ⟨h1, h2, h3⟩ := ih lines (warns ++ [g.1]) false h
      refine ⟨?_, ?_, ?_⟩
      · rw [h1]
        simp [List.forall_mem_cons, hg]
      · rw [h2]
        simp [sentinel_warnings, hg]
      · rw [h3]
        simp [apply_succeeding_groups, hg]
    · rcases hgen : generate_currency_rates data lines with ⟨lines2, e2⟩
      rcases e2 with _ | e
      · have hr : run_groups env (g :: gs) lines warns rslt
            = run_groups env gs lines2 warns rslt := by
          simp [run_groups, hg, hgen]
        rw [hr] at h ⊢
        obtain ⟨h1, h2, h3⟩ := ih lines2 warns rslt h
        refine ⟨?_, ?_, ?_⟩
        · rw [h1]
          simp [List.forall_mem_cons, hg]
        · rw [h2]
          simp [sentinel_warnings, hg]
        · rw [h3]
          simp [apply_succeeding_groups, hg, hgen]
      · have hr : run_groups env (g :: gs) lines warns rslt
            = (lines2, warns, rslt, some e) := by
          simp [run_groups, hg, hgen]
        rw [hr] at h
        simp at h

/-- Claim C3: when no generation step raises, `update_currency_rates`
returns true exactly when no provider group hit the failure sentinel, it
records one warning per sentinel group (processing continues past them),
and the lines carry the rates of every succeeding group. -/
theorem update_partial_failure_tolerant (env : String → List Nat → ParseResult)
    (lines : List MoveLine)
    (h : (update_currency_rates env lines).2.2.2 = none) :
    ((update_currency_rates env lines).2.2.1 = true ↔
      ∀ g ∈ group_by_provider lines, env g.1 g.2 ≠ ParseResult.failure)
    ∧ (update_currency_rates env lines).2.1
        = sentinel_warnings env (group_by_provider lines)
    ∧ (update_currency_rates env lines).1
        = apply_succeeding_groups env (group_by_provider lines) lines := by
  unfold update_currency_rates at h ⊢
  obtain ⟨h1, h2, h3⟩ :=
    run_groups_no_error_spec env (group_by_provider lines) lines [] true h
  refine ⟨?_, ?_, h3⟩
  · rw [h1]
    simp
  · rw [h2]
    simp

/-- Environment for the C3 witness: provider boe is down, provider fta
serves a USD map. -/
def c3_env : String → List Nat → ParseResult :=
  fun p _ => if p = "boe" then ParseResult.failure else ParseResult.ok [("USD", (1, 0))]

/-- Lines for the C3 witness: one company on the failing provider, one on
the succeeding provider. -/
def c3_lines : List MoveLine :=
  [{ sample_line with companyProvider := some "boe", companyId := 1 },
   { sample_line with companyProvider := some "fta", companyId := 2 }]

/-- Witness for claim C3: with provider boe failing and provider fta
succeeding, the update runs to completion with result false, one warning,
and the rates of the succeeding group applied. -/
theorem update_partial_failure_tolerant_witness :
    ((update_currency_rates c3_env c3_lines).2.2.1 = true ↔
      ∀ g ∈ group_by_provider c3_lines, c3_env g.1 g.2 ≠ ParseResult.failure)
    ∧ (update_currency_rates c3_env c3_lines).2.1
        = sentinel_warnings c3_env (group_by_provider c3_lines)
    ∧ (update_currency_rates c3_env c3_lines).1
        = apply_succeeding_groups c3_env (group_by_provider c3_lines) c3_lines :=
  update_partial_failure_tolerant c3_env c3_lines (by rfl)

/-- Helper: `_generate_currency_rates` on the empty rate map raises at the
first line, the empty map holding no currency at all. -/
theorem generate_empty_parsed (l : MoveLine) (ls : List MoveLine) :
    generate_currency_rates [] (l :: ls) = (l :: ls, some PyError.nameError) := rfl

/-- Claim C4 (amended): a provider group whose parse returns the empty map
is not treated as the failure sentinel — no warning is logged and the
result flag stays true — but with at least one line present the rate
generation then raises (the empty map lacks every currency), so the update
aborts with an exception instead of completing successfully. -/
theorem empty_parse_not_sentinel_but_generation_raises
    (env : String → List Nat → ParseResult) (lines : List MoveLine)
    (p : String) (cs : List Nat)
    (hg : group_by_provider lines = [(p, cs)])
    (he : env p cs = ParseResult.ok [])
    (hne : lines ≠ []) :
    update_currency_rates env lines = (lines, [], true, some PyError.nameError) := by
  cases lines with
  | nil => exact absurd rfl hne
  | cons l ls =>
    unfold update_currency_rates
    rw [hg]
    simp [run_groups, he, generate_empty_parsed]

/-- Line whose company uses provider fta, for the C4 scenario. -/
def c4_line : MoveLine := { sample_line with companyProvider := some "fta" }

/-- Claim C4 counterexample: a provider group whose parse returns the empty
map makes `update_currency_rates` raise an exception (the empty map lacks
the currency of the line), contradicting that an empty parse result is
treated as success with no error raised. -/
theorem empty_parse_result_raises :
    (update_currency_rates (fun _ _ => ParseResult.ok []) [c4_line]).2.2.2
      = some PyError.nameError := rfl

/-- Witness for the amended claim C4 at a concrete one-line batch. -/
theorem empty_parse_not_sentinel_but_generation_raises_witness :
    update_currency_rates (fun _ _ => ParseResult.ok []) [c4_line]
      = ([c4_line], [], true, some PyError.nameError) :=
  empty_parse_not_sentinel_but_generation_raises (fun _ _ => ParseResult.ok [])
    [c4_line] "fta" [1] (by rfl) rfl (by simp)

/-- Helper: a company found inside a group after one `add_to_group` step
was already in the accumulator under the same provider, or is exactly the
company just inserted under exactly that provider. -/
theorem add_to_group_mem (acc : List (String × List Nat)) (p : String) (c0 : Nat)
    (g : String × List Nat) (hg : g ∈ add_to_group acc p c0) (c : Nat) (hc : c ∈ g.2) :
    (∃ g1 ∈ acc, g1.1 = g.1 ∧ c ∈ g1.2) ∨ (g.1 = p ∧ c = c0) := by
  unfold add_to_group at hg
  by_cases hany : acc.any (fun g2 => g2.1 = p)
  · rw [if_pos hany] at hg
    obtain ⟨g1, hg1, hfg⟩ := List.mem_map.mp hg
    by_cases hp : g1.1 = p
    · rw [if_pos hp] at hfg
      subst hfg
      simp only [List.mem_append, List.mem_singleton] at hc
      rcases hc with hc | hc
      · exact Or.inl ⟨g1, hg1, rfl, hc⟩
      · exact Or.inr ⟨hp, hc⟩
    · rw [if_neg hp] at hfg
      subst hfg
      exact Or.inl ⟨g1, hg1, rfl, hc⟩
  · rw [if_neg hany] at hg
    rcases List.mem_append.mp hg with h | h
    · exact Or.inl ⟨g, h, rfl, hc⟩
    · rw [List.mem_singleton] at h
      subst h
      rw [List.mem_singleton] at hc
      exact Or.inr ⟨rfl, hc⟩

/-- Helper: every company in a group produced by folding `group_step` comes
from the starting accumulator or from a processed line whose company has
that very provider configured. -/
theorem group_fold_companies_have_provider :
    ∀ (ls : List MoveLine) (acc : List (String × List Nat)),
    ∀ g ∈ ls.foldl group_step acc, ∀ c ∈ g.2,
    (∃ g1 ∈ acc, g1.1 = g.1 ∧ c ∈ g1.2) ∨
    (∃ l ∈ ls, l.companyProvider = some g.1 ∧ l.companyId = c) := by
  intro ls
  induction ls with
  | nil =>
    intro acc g hg c hc
    exact Or.inl ⟨g, hg, rfl, hc⟩
  | cons l ls ih =>
    intro acc g hg c hc
    rw [List.foldl_cons] at hg
    rcases ih (group_step acc l) g hg c hc with h | h
    · obtain ⟨g1, hg1, heq, hcg1⟩ := h
      unfold group_step at hg1
      cases hp : l.companyProvider with
      | none =>
        rw [hp] at hg1
        exact Or.inl ⟨g1, hg1, heq, hcg1⟩
      | some p =>
        rw [hp] at hg1
        rcases add_to_group_mem acc p l.companyId g1 hg1 c hcg1 with h2 | h2
        · obtain ⟨g2, hg2, he2, hc2⟩ := h2
          exact Or.inl ⟨g2, hg2, he2.trans heq, hc2⟩
        · refine Or.inr ⟨l, List.mem_cons_self l ls, ?_, h2.2.symm⟩
          rw [hp]
          exact congrArg some (h2.1.symm.trans heq)
    · obtain ⟨l2, hl2, hp2, hc2⟩ := h
      exact Or.inr ⟨l2, List.mem_cons_of_mem l hl2, hp2, hc2⟩

/-- Claim C7 (amended): every company placed in a provider group by
`_group_by_provider` comes from a line whose company has exactly that
provider configured — a company with no provider set lands in no group, so
no parse function is invoked for it.  (The rest of the original claim fails:
see the counterexample, rate generation still walks every line.) -/
theorem group_by_provider_excludes_providerless (lines : List MoveLine)
    (g : String × List Nat) (hg : g ∈ group_by_provider lines)
    (c : Nat) (hc : c ∈ g.2) :
    ∃ l ∈ lines, l.companyProvider = some g.1 ∧ l.companyId = c := by
  unfold group_by_provider at hg
  rcases group_fold_companies_have_provider lines [] g hg c hc with h | h
  · obtain ⟨g1, hg1, _, _⟩ := h
    exact absurd hg1 (List.not_mem_nil g1)
  · exact h

/-- Line of a company with a provider, for the C7 scenario. -/
def c7_ok_line : MoveLine := { sample_line with companyProvider := some "fta", companyId := 1 }

/-- Line of a company with no provider whose move currency XYZ no provider
serves, for the C7 scenario. -/
def c7_np_line : MoveLine :=
  { sample_line with companyProvider := none, companyId := 2, moveCurrencyName := "XYZ" }

/-- Environment for the C7 scenario: every provider serves only USD. -/
def c7_env : String → List Nat → ParseResult := fun _ _ => ParseResult.ok [("USD", (1, 0))]

/-- Claim C7 counterexample: the batch of the provider-configured line alone
updates without error, but adding a line of a provider-less company makes
the very same update raise — the presence of that company does change the
batch result, because `_generate_currency_rates` runs over every line of
`self`, not only the lines of grouped companies. -/
theorem providerless_line_changes_batch_result :
    (update_currency_rates c7_env [c7_ok_line]).2.2.2 = none
    ∧ (update_currency_rates c7_env [c7_ok_line, c7_np_line]).2.2.2
        = some PyError.nameError
    ∧ c7_np_line.companyProvider = none :=
  ⟨rfl, rfl, rfl⟩

/-- Witness for the amended claim C7: in the two-line batch the only grouped
company is company 1, witnessed by the line with provider fta. -/
theorem group_by_provider_excludes_providerless_witness :
    ∃ l ∈ [c7_ok_line, c7_np_line], l.companyProvider = some "fta" ∧ l.companyId = 1 :=
  group_by_provider_excludes_providerless [c7_ok_line, c7_np_line]
    ("fta", [1]) (by decide) 1 (by decide)

/-- Helper: the inner rate loop leaves a line untouched when no parsed key
equals the name of its user currency. -/
theorem assign_rates_no_match (base : ℚ) :
    ∀ (ps : List (String × ℚ × Nat)) (l : MoveLine),
    (∀ e ∈ ps, l.userCurrencyName ≠ some e.1) →
    assign_rates base l ps = l := by
  intro ps
  induction ps with
  | nil =>
    intro l _
    rfl
  | cons e ps ih =>
    intro l h
    rw [assign_rates, if_neg (h e (List.mem_cons_self e ps))]
    exact ih l (fun e2 he2 => h e2 (List.mem_cons_of_mem e he2))

/-- Claim C9 (amended): when for every line the parsed map holds the move
currency of the line (the key the code uses as base) with a nonzero rate,
and no parsed key equals the name of the user currency of the line
(including an unset user currency), `_generate_currency_rates` completes
without error and returns every line — all fields — unchanged. -/
theorem generate_no_user_match_frame (parsed : ParsedData) (lines : List MoveLine)
    (hbase : ∀ l ∈ lines, ∃ ri, parsed_get parsed l.moveCurrencyName = some ri ∧ ri.1 ≠ 0)
    (huser : ∀ l ∈ lines, ∀ e ∈ parsed, l.userCurrencyName ≠ some e.1) :
    generate_currency_rates parsed lines = (lines, none) := by
  induction lines with
  | nil => rfl
  | cons l ls ih =>
    obtain ⟨ri, hri, hnz⟩ := hbase l (List.mem_cons_self l ls)
    have hline : generate_line parsed l = Except.ok l := by
      unfold generate_line
      rw [hri]
      show (if ri.1 = 0 then Except.error PyError.zeroDivisionError
        else Except.ok (assign_rates ri.1 l parsed)) = Except.ok l
      rw [if_neg hnz,
        assign_rates_no_match ri.1 parsed l (huser l (List.mem_cons_self l ls))]
    have hrest := ih (fun l2 h2 => hbase l2 (List.mem_cons_of_mem l h2))
      (fun l2 h2 => huser l2 (List.mem_cons_of_mem l h2))
    simp [generate_currency_rates, hline, hrest]

/-- Line whose company base currency USD is in the parsed map while its
move currency EUR is not, for the C9 counterexample. -/
def c9_line : MoveLine :=
  { sample_line with moveCurrencyName := "EUR", companyCurrencyName := "USD" }

/-- Claim C9 counterexample: the parsed map holds the company base currency
USD and no key matches the (unset) user currency, yet generation raises
instead of completing without error — the code keys its lookup on the move
currency EUR, which is absent. -/
theorem generate_base_present_move_absent_raises :
    (generate_currency_rates [("USD", (1, 0))] [c9_line]).2 = some PyError.nameError
    ∧ c9_line.companyCurrencyName = "USD"
    ∧ c9_line.userCurrencyName = none :=
  ⟨rfl, rfl, rfl⟩

/-- Witness for the amended claim C9: a USD-move line with unset user
currency passes through generation unchanged under a USD/EUR map. -/
theorem generate_no_user_match_frame_witness :
    generate_currency_rates [("USD", (2, 0)), ("EUR", (3, 0))] [sample_line]
      = ([sample_line], none) :=
  generate_no_user_match_frame [("USD", (2, 0)), ("EUR", (3, 0))] [sample_line]
    (by
      intro l hl
      rw [List.mem_singleton] at hl
      subst hl
      exact ⟨(2, 0), rfl, by decide⟩)
    (by decide)
